import Mathlib

/-!
Shallow embedding of the pipeline orchestration and decision core of the
`ai-video-editor` repository (`src/video_pipeline/`), together with proofs of
the specified properties.

Modelling conventions:
* JSON objects / Python dicts become association lists `List (String × β)`
  where lookup returns the first matching key (Python dicts have unique keys,
  so first-match equals the dict lookup).
* Python floats are idealized as rationals `ℚ`; arithmetic on the decision
  weights and thresholds is exact in the embedding.
* Persisted JSON files (scores.json, state_<user>.json) become in-memory
  values threaded through the functions; each mutating method of the Python
  classes is a pure state transformer `load → mutate → save`.
-/

namespace VideoPipeline

/-- First-match association-list lookup, the embedding of Python `dict.get`. -/
def lookupA {β : Type} (m : List (String × β)) (k : String) : Option β :=
  match m with
  | [] => none
  | (k', v) :: rest => if k' = k then some v else lookupA rest k

/-- `dict[k] = v`: replace the first binding of `k`, or append a new binding. -/
def insertA {β : Type} (m : List (String × β)) (k : String) (v : β) :
    List (String × β) :=
  match m with
  | [] => [(k, v)]
  | (k', v') :: rest =>
      if k' = k then (k', v) :: rest else (k', v') :: insertA rest k v

/-- Keys of an association list. -/
def keysA {β : Type} (m : List (String × β)) : List String :=
  m.map Prod.fst

/-! ## Score Ledger — `core/scoring.py`, class `ScoreKeeper`

The ledger file `scores.json` maps chunk name → (metric name → float).
`update_score` does a locked read-modify-write; the lock serializes calls, so
a sequence of calls is the sequential composition modelled here. -/

/-- Metric map of one chunk: metric name → stored value. -/
abbrev Metrics := List (String × ℚ)

/-- The whole scores.json content: chunk name → metric map. -/
abbrev Ledger := List (String × Metrics)

/-- `max(0.0, min(1.0, float(score)))` from `ScoreKeeper.update_score`. -/
def clamp01 (v : ℚ) : ℚ := max 0 (min 1 v)

/-- `ScoreKeeper.update_score(chunk_name, metric, score)`:
if the chunk has no entry an empty one is created, then
`data[chunk_name][metric] = max(0.0, min(1.0, float(score)))`. -/
def update_score (L : Ledger) (chunk_name metric : String) (score : ℚ) :
    Ledger :=
  let cur := (lookupA L chunk_name).getD []
  insertA L chunk_name (insertA cur metric (clamp01 score))

/-- `ScoreKeeper.get_score(chunk_name)`: `data.get(chunk_name, {})`; a missing
scores file also yields `{}`. -/
def get_score (L : Ledger) (chunk_name : String) : Metrics :=
  (lookupA L chunk_name).getD []

/-- Every value stored anywhere in the ledger lies in `[0,1]`. -/
def ValuesIn01 (L : Ledger) : Prop :=
  ∀ p ∈ L, ∀ q ∈ p.2, 0 ≤ q.2 ∧ q.2 ≤ 1

/-- Replay a sequence of `update_score` calls
`(chunk_name, metric, score)` from left to right. -/
def apply_updates (L : Ledger) (us : List (String × String × ℚ)) : Ledger :=
  us.foldl (fun acc u => update_score acc u.1 u.2.1 u.2.2) L

/-! ## State Store — `core/state.py`, class `StateManager`

In file mode the state is `{"chunks": {...}, "last_updated": ...}`; we model
the `chunks` mapping (the timestamp carries no information the contracts
mention).  Each chunk entry is a dict with keys `status`, `step`, `message`
and, once `mark_step_done` has touched it, `completed_steps`; we model
`completed_steps` as a list that starts empty (absent key ≡ `[]`, exactly how
`chunk.get("completed_steps", [])` reads it). -/

/-- One entry of `state["chunks"]`. -/
structure ChunkState where
  status : String
  step : String
  message : String
  completed_steps : List String
deriving DecidableEq, Repr

/-- The persisted pipeline state (the `chunks` mapping of the state file). -/
structure PipelineState where
  chunks : List (String × ChunkState)
deriving DecidableEq, Repr

/-- The fresh entry `init_state` writes for each chunk name. -/
def pendingChunk : ChunkState :=
  { status := "PENDING", step := "Init", message := "Waiting to start...",
    completed_steps := [] }

/-- `StateManager.init_state(chunks)`: if `state.get("chunks")` is truthy
(non-empty) the loaded state is returned unchanged; otherwise a fresh PENDING
entry is created for every name in `chunks` and saved. -/
def init_state (st : PipelineState) (chunks : List String) : PipelineState :=
  if st.chunks = [] then
    { chunks := chunks.map (fun chunk_name => (chunk_name, pendingChunk)) }
  else st

/-- Python truthiness of the optional `step` / `message` arguments:
`None` and the empty string are both falsy. -/
def truthy : Option String → Bool
  | none => false
  | some s => !(s = "")

/-- `StateManager.update_chunk_status(chunk_name, status, step, message)`:
returns (without saving) when the chunk is not tracked; otherwise overwrites
`status` and, when truthy, `step` and `message`. -/
def update_chunk_status (st : PipelineState) (chunk_name status : String)
    (step message : Option String) : PipelineState :=
  match lookupA st.chunks chunk_name with
  | none => st
  | some c =>
      { chunks := insertA st.chunks chunk_name
          { c with
            status := status
            step := if truthy step then step.getD c.step else c.step
            message := if truthy message then message.getD c.message
                       else c.message } }

/-- `StateManager.get_chunk_status(chunk_name)`:
`state.get("chunks", {}).get(chunk_name, {})`; `none` models the empty
record returned for an untracked chunk. -/
def get_chunk_status (st : PipelineState) (chunk_name : String) :
    Option ChunkState :=
  lookupA st.chunks chunk_name

/-- `StateManager.is_step_done(chunk_name, step_name)`: `False` for an
untracked chunk; otherwise true iff `status == "COMPLETED"` or the step is in
`completed_steps`. -/
def is_step_done (st : PipelineState) (chunk_name step_name : String) : Bool :=
  match lookupA st.chunks chunk_name with
  | none => false
  | some c => c.status = "COMPLETED" || step_name ∈ c.completed_steps

/-- `StateManager.mark_step_done(chunk_name, step_name)`: returns (without
saving) when the chunk is not tracked; otherwise appends the step to
`completed_steps` if not already present.  It writes no other field. -/
def mark_step_done (st : PipelineState) (chunk_name step_name : String) :
    PipelineState :=
  match lookupA st.chunks chunk_name with
  | none => st
  | some c =>
      { chunks := insertA st.chunks chunk_name
          { c with
            completed_steps :=
              if step_name ∈ c.completed_steps then c.completed_steps
              else c.completed_steps ++ [step_name] } }

/-! ## Orchestrator — `run_pipeline.py` -/

/-- The declared ordered stage list `STEPS` of `run_pipeline.py`
(stage display names; the script paths are irrelevant to the state logic). -/
def STEPS : List String :=
  ["✂️  Splitting Video", "🏃 Motion Scoring", "🗣️  VAD (Voice) Scoring",
   "👤 Face Detection Scoring", "🔒 Privacy Blur", "🏷️  Semantic Tagging",
   "🧠 The Decider", "📊 Decision Analytics", "🗺️  Action Planner",
   "🚜 Action Executor", "📝 Run Explainer", "🕵️  Debug Visualization",
   "🛠️  Knowledge Update", "🎞️  Final Merge"]

/-- Outcome of `run_step`: either the global-resume check fired and the stage
was skipped (the function returns `True` before `subprocess.Popen`), or the
stage's worker script was launched (whose exit status is external). -/
inductive StepOutcome where
  | skipped
  | launched
deriving DecidableEq, Repr

/-- The global step-resume logic of `run_step(name, script)`: it loads the
state; if the chunk map is non-empty (`if active_chunks:`) and every tracked
chunk has the step done, it returns `True` without launching the worker;
otherwise it launches the stage script. -/
def run_step (st : PipelineState) (name : String) : StepOutcome :=
  if st.chunks ≠ [] ∧ st.chunks.all (fun p => is_step_done st p.1 name) then
    .skipped
  else .launched

/-! ## Decision Engine — `decider.py`, class `Decider`

`decide_clips` resolves its configuration with inline defaults
(`config.get(..., default)`); we model the resolved configuration as a
structure and provide the defaults as `defaultDeciderConfig`. -/

/-- The configuration values `decide_clips` reads, after its inline
`dict.get` defaults have been applied. -/
structure DeciderConfig where
  keep_threshold : ℚ
  wface : ℚ
  wmotion : ℚ
  wspeech : ℚ
  semantic_weights : List (String × ℚ)
  semantic_default : ℚ
deriving DecidableEq, Repr

/-- The defaults in `decide_clips`: `keep_threshold` 0.65, weights
`{face: 0.4, motion: 0.3, speech: 0.3}`, `semantic_policy.weights` `{}`,
`semantic_policy.default_weight` 0.5 (an absent `config.json` loads as `{}`).
-/
def defaultDeciderConfig : DeciderConfig :=
  { keep_threshold := 0.65, wface := 0.4, wmotion := 0.3, wspeech := 0.3,
    semantic_weights := [], semantic_default := 0.5 }

/-- One element of the decision list `decide_clips` returns (the `result`
dict built per clip). -/
structure Decision where
  clip_id : String
  final_score : ℚ
  decision : String
  confidence : ℚ
  top_factors : List String
  semantic_category : String
  semantic_weight : ℚ
deriving DecidableEq, Repr

/-- Python `round(x, 3)`: round half to even at the third decimal. -/
def round3 (q : ℚ) : ℚ :=
  let x := q * 1000
  let n := ⌊x⌋
  let frac := x - (n : ℚ)
  let r : ℤ :=
    if frac < 1 / 2 then n
    else if 1 / 2 < frac then n + 1
    else if n % 2 = 0 then n else n + 1
  (r : ℚ) / 1000

/-- The `quality_score` of one clip (decider.py lines 68–72): weighted sum of
`face_score`, `motion_score`, `vad_score`, each defaulting to 0.0. -/
def quality_score (cfg : DeciderConfig) (metrics : Metrics) : ℚ :=
  cfg.wface * ((lookupA metrics "face_score").getD 0) +
  cfg.wmotion * ((lookupA metrics "motion_score").getD 0) +
  cfg.wspeech * ((lookupA metrics "vad_score").getD 0)

/-- The semantic category the decider uses:
`semantic_tags.get(clip_id, {}).get("category", "unknown")` — an absent tag
entry (or an entry lacking `category`) becomes `"unknown"`. -/
def semantic_category_of (category? : Option String) : String :=
  category?.getD "unknown"

/-- The semantic weight: `semantic_weights_cfg.get(tag, semantic_default)`.
Note there is NO special case giving 1.0 for a missing label: the
`if tag == "unknown"` branch in the source is a `pass`. -/
def semantic_weight_of (cfg : DeciderConfig) (tag : String) : ℚ :=
  (lookupA cfg.semantic_weights tag).getD cfg.semantic_default

/-- Stable descending insertion used to model Python
`factors.sort(key=lambda x: x[1], reverse=True)` (a stable sort). -/
def insertDesc (x : String × ℚ) : List (String × ℚ) → List (String × ℚ)
  | [] => [x]
  | y :: ys => if x.2 > y.2 then x :: y :: ys else y :: insertDesc x ys

/-- Stable descending sort by the second component (insert each element,
left to right, after all already-placed elements of ≥ value). -/
def sortFactorsDesc (l : List (String × ℚ)) : List (String × ℚ) :=
  l.foldl (fun acc x => insertDesc x acc) []

/-- `top_factors` (decider.py lines 94–107): the four labelled contribution
terms, sorted descending, first three, keeping only strictly positive ones. -/
def top_factors_of (cfg : DeciderConfig) (metrics : Metrics) (tag : String) :
    List String :=
  let face_score := (lookupA metrics "face_score").getD 0
  let motion_score := (lookupA metrics "motion_score").getD 0
  let vad_score := (lookupA metrics "vad_score").getD 0
  let sw := semantic_weight_of cfg tag
  let factors : List (String × ℚ) :=
    [("Face Visibility", face_score * cfg.wface),
     ("Motion", motion_score * cfg.wmotion),
     ("Speech", vad_score * cfg.wspeech),
     ("Topic: " ++ tag, if sw ≠ 1 then sw - 0.5 else 0.1)]
  (((sortFactorsDesc factors).take 3).filter (fun f => 0 < f.2)).map Prod.fst

/-- The per-clip body of `Decider.decide_clips` (decider.py lines 58–119):
missing metrics default to 0.0, `privacy_penalty` is the constant 0.0,
`final_score = quality * semantic_weight * (1 - privacy_penalty)`, and the
decision is `"keep"` iff `final_score >= keep_threshold`, else `"discard"`
(no other value is ever produced). -/
def decide_clip (cfg : DeciderConfig) (clip_id : String) (metrics : Metrics)
    (category? : Option String) : Decision :=
  let privacy_penalty : ℚ := 0
  let quality := quality_score cfg metrics
  let tag := semantic_category_of category?
  let semantic_weight := semantic_weight_of cfg tag
  let final_score := quality * semantic_weight * (1 - privacy_penalty)
  let decision_enum := if final_score ≥ cfg.keep_threshold then "keep"
                       else "discard"
  { clip_id := clip_id
    final_score := round3 final_score
    decision := decision_enum
    confidence := round3 final_score
    top_factors := top_factors_of cfg metrics tag
    semantic_category := tag
    semantic_weight := semantic_weight }

/-- `Decider.decide_clips`: one `Decision` per entry of the scores file, in
order; the semantic tag for a clip is looked up by clip id (we pass the
`category` field of the tag entry, `none` when the clip has no entry). -/
def decide_clips (cfg : DeciderConfig) (all_scores : Ledger)
    (semantic_tags : List (String × String)) : List Decision :=
  all_scores.map
    (fun p => decide_clip cfg p.1 p.2 (lookupA semantic_tags p.1))

/-! ## Action Planner — `modules/report/planner.py`, class `ActionPlanner` -/

/-- The `action_policy` configuration that `plan_actions` reads (defaults
`confident_keep` 0.75, `borderline` 0.6).  Both values are read into local
variables and then never used. -/
structure ActionPolicy where
  confident_keep : ℚ
  borderline : ℚ
deriving DecidableEq, Repr

/-- One element of the action plan. -/
structure PlanItem where
  clip_id : String
  action : String
  destination : String
  reason : String
  score : ℚ
deriving DecidableEq, Repr

/-- `os.path.join` for the two-component paths the planner builds. -/
def joinPath (a b : String) : String := a ++ "/" ++ b

/-- Python `str.lower()` (character-wise; the decision strings it is applied
to are ASCII). -/
def lowerStr (s : String) : String := ⟨s.data.map Char.toLower⟩

/-- The reason string: `", ".join(top_factors)` or `"low score"` when the
list is empty. -/
def reason_of (top_factors : List String) : String :=
  if top_factors = [] then "low score" else String.intercalate ", " top_factors

/-- The per-decision body of `ActionPlanner.plan_actions` (planner.py lines
35–82).  The action is chosen purely from the decision string
(`d.get("decision", "discard").lower()`): `"keep"` routes by semantic
category, `"quarantine"` goes to the quarantine folder with the
`" (Borderline)"` reason suffix, everything else is discarded.  The
`confident_keep` / `borderline` thresholds do not appear. -/
def plan_action (output_root : String) (d : Decision) : PlanItem :=
  let decision_raw := lowerStr d.decision
  if decision_raw = "keep" then
    let category := d.semantic_category
    let destination :=
      if category = "product_related" ∨ category = "funny" ∨
         category = "general" then joinPath output_root category
      else joinPath output_root "selected"
    { clip_id := d.clip_id, action := "keep", destination := destination,
      reason := reason_of d.top_factors, score := d.confidence }
  else if decision_raw = "quarantine" then
    { clip_id := d.clip_id, action := "quarantine",
      destination := joinPath output_root "quarantine",
      reason := reason_of d.top_factors ++ " (Borderline)",
      score := d.confidence }
  else
    { clip_id := d.clip_id, action := "discard",
      destination := joinPath output_root "discarded",
      reason := reason_of d.top_factors, score := d.confidence }

/-- `ActionPlanner.plan_actions(decisions)`: reads `policy.confident_keep`
and `policy.borderline` (unused) and maps `plan_action` over the list. -/
def plan_actions (policy : ActionPolicy) (output_root : String)
    (decisions : List Decision) : List PlanItem :=
  let _confident_keep_thresh := policy.confident_keep
  let _borderline_thresh := policy.borderline
  decisions.map (plan_action output_root)

/-! ## Action Executor — `modules/report/executor.py`, class `ActionExecutor`

The executor touches the filesystem: it looks the source clip up under the
processing directory (direct relative path, else a recursive search matching
the bare filename), `shutil.copy2`s it to
`destination/<clip_id with path separators flattened to "_">`, and appends an
audit entry.  We model the filesystem as the set of file paths that exist:
`processing` holds the paths (relative to the processing root) of the clip
files, `output` the absolute destination paths.  A copy creates the
destination path (overwriting is a no-op on the set of paths) and never
removes anything; `copy2` never touches `processing`. -/

/-- Filesystem model: the clip files under the processing root (relative
paths) and the materialized destination files. -/
structure FileSystem where
  processing : List String
  output : List String
deriving DecidableEq, Repr

/-- The last path component of a relative path (the bare filename
`os.walk` reports). -/
def fileNameOf (p : String) : String :=
  ((p.splitOn "/").getLast?).getD p

/-- Source lookup of `execute_plan` (executor.py lines 48–55): the direct
relative path under the processing root, falling back to
`_find_clip_path`'s recursive search by bare filename. -/
def source_found (fs : FileSystem) (clip_id : String) : Bool :=
  clip_id ∈ fs.processing || fs.processing.any (fun p => fileNameOf p = clip_id)

/-- `clip_id.replace(os.path.sep, "_")`: flatten the unit-id path separators
into the output filename. -/
def flatten_name (clip_id : String) : String :=
  clip_id.replace "/" "_"

/-- The destination path of one plan item:
`os.path.join(dest_folder, flattened filename)`. -/
def dest_path (item : PlanItem) : String :=
  joinPath item.destination (flatten_name item.clip_id)

/-- Create a file path: the path set gains `x` (creating a file that already
exists overwrites its bytes and leaves the path set unchanged). -/
def createFile (l : List String) (x : String) : List String :=
  if x ∈ l then l else l ++ [x]

/-- One iteration of the `execute_plan` loop: skip (with a warning) when the
source clip cannot be found, otherwise copy it to the flattened destination
path.  The audit append has no effect on the file sets modelled here. -/
def execute_item (fs : FileSystem) (item : PlanItem) : FileSystem :=
  if source_found fs item.clip_id then
    { fs with output := createFile fs.output (dest_path item) }
  else fs

/-- `ActionExecutor.execute_plan(plan)`: the loop over the plan items. -/
def execute_plan (fs : FileSystem) (plan : List PlanItem) : FileSystem :=
  plan.foldl execute_item fs

/-! ## Helper lemmas on the association-list operations -/

theorem lookupA_insertA_self {β : Type} (m : List (String × β)) (k : String)
    (v : β) : lookupA (insertA m k v) k = some v := by
  induction m with
  | nil => simp [insertA, lookupA]
  | cons p rest ih =>
      by_cases h : p.1 = k
      · simp [insertA, lookupA, h]
      · simp [insertA, lookupA, h, ih]

theorem lookupA_insertA_ne {β : Type} (m : List (String × β)) (k k' : String)
    (v : β) (hne : k' ≠ k) : lookupA (insertA m k v) k' = lookupA m k' := by
  have hkk : ¬k = k' := fun h => hne h.symm
  induction m with
  | nil => simp [insertA, lookupA, hkk]
  | cons p rest ih =>
      by_cases h : p.1 = k
      · subst h
        simp [insertA, lookupA, hkk]
      · by_cases h' : p.1 = k'
        · simp [insertA, lookupA, h, h', hkk, hne]
        · simp [insertA, lookupA, h, h', ih]

theorem keysA_insertA_of_mem {β : Type} (m : List (String × β))
    (k : String) (v : β) (h : lookupA m k ≠ none) :
    keysA (insertA m k v) = keysA m := by
  induction m with
  | nil => simp [lookupA] at h
  | cons p rest ih =>
      by_cases hk : p.1 = k
      · simp [insertA, keysA, hk]
      · simp only [lookupA, hk, if_false] at h
        simp [insertA, keysA, hk] at ih ⊢
        exact ih h

theorem mem_insertA {β : Type} (m : List (String × β)) (k : String) (v : β)
    (q : String × β) (h : q ∈ insertA m k v) : q ∈ m ∨ q = (k, v) := by
  induction m with
  | nil => simp [insertA] at h; simp [h]
  | cons p rest ih =>
      by_cases hk : p.1 = k
      · simp [insertA, hk] at h
        rcases h with h | h
        · right; rw [h, ← hk]
        · left; simp [h]
      · simp [insertA, hk] at h
        rcases h with h | h
        · left; simp [h]
        · rcases ih h with h' | h'
          · left; simp [h']
          · right; exact h'

theorem lookupA_eq_some_mem {β : Type} (m : List (String × β)) (k : String)
    (v : β) (h : lookupA m k = some v) : (k, v) ∈ m := by
  induction m with
  | nil => simp [lookupA] at h
  | cons p rest ih =>
      by_cases hk : p.1 = k
      · simp only [lookupA, hk, if_pos] at h
        rw [Option.some_inj] at h
        subst hk
        rw [← h]
        exact List.mem_cons_self p rest
      · simp only [lookupA, hk, if_neg, if_false] at h
        exact List.mem_cons_of_mem p (ih h)

theorem lookupA_map_const {β : Type} (l : List String) (v : β) (n : String)
    (h : n ∈ l) : lookupA (l.map (fun x => (x, v))) n = some v := by
  induction l with
  | nil => simp at h
  | cons x rest ih =>
      by_cases hx : x = n
      · simp [lookupA, hx]
      · rcases List.mem_cons.mp h with h' | h'
        · exact absurd h'.symm hx
        · simp [lookupA, hx, ih h']

theorem clamp01_mem_Icc (v : ℚ) : 0 ≤ clamp01 v ∧ clamp01 v ≤ 1 := by
  refine ⟨le_max_left 0 _, max_le (by norm_num) (min_le_left 1 v)⟩

theorem valuesIn01_update (L : Ledger) (c m : String) (v : ℚ)
    (h : ValuesIn01 L) : ValuesIn01 (update_score L c m v) := by
  intro p hp q hq
  rcases mem_insertA _ _ _ _ hp with hpL | hpnew
  · exact h p hpL q hq
  · subst hpnew
    rcases mem_insertA _ _ _ _ hq with hqcur | hqnew
    · rcases hcur : lookupA L c with _ | ms
      · rw [hcur] at hqcur
        simp [Option.getD] at hqcur
      · rw [hcur] at hqcur
        exact h (c, ms) (lookupA_eq_some_mem L c ms hcur) q hqcur
    · subst hqnew
      exact clamp01_mem_Icc v

theorem valuesIn01_apply_updates (L : Ledger)
    (us : List (String × String × ℚ)) (h : ValuesIn01 L) :
    ValuesIn01 (apply_updates L us) := by
  induction us generalizing L with
  | nil => exact h
  | cons u rest ih =>
      exact ih (update_score L u.1 u.2.1 u.2.2)
        (valuesIn01_update L u.1 u.2.1 u.2.2 h)

theorem valuesIn01_nil : ValuesIn01 [] := by
  intro p hp
  simp at hp

/-! ## Helper lemmas for the executor -/

theorem execute_item_processing (fs : FileSystem) (i : PlanItem) :
    (execute_item fs i).processing = fs.processing := by
  unfold execute_item
  split <;> rfl

theorem execute_plan_processing (p : List PlanItem) (fs : FileSystem) :
    (execute_plan fs p).processing = fs.processing := by
  induction p generalizing fs with
  | nil => rfl
  | cons i rest ih =>
      show (execute_plan (execute_item fs i) rest).processing = fs.processing
      rw [ih, execute_item_processing]

theorem source_found_of_processing_eq (fs fs' : FileSystem) (c : String)
    (h : fs.processing = fs'.processing) :
    source_found fs c = source_found fs' c := by
  simp [source_found, h]

theorem mem_createFile_self (l : List String) (x : String) :
    x ∈ createFile l x := by
  unfold createFile
  split
  · assumption
  · simp

theorem mem_createFile_of_mem (l : List String) (x y : String) (h : y ∈ l) :
    y ∈ createFile l x := by
  unfold createFile
  split
  · exact h
  · simp [h]

theorem execute_item_output_mono (fs : FileSystem) (i : PlanItem)
    (x : String) (h : x ∈ fs.output) : x ∈ (execute_item fs i).output := by
  unfold execute_item
  split
  · exact mem_createFile_of_mem _ _ _ h
  · exact h

theorem execute_plan_output_mono (p : List PlanItem) (fs : FileSystem)
    (x : String) (h : x ∈ fs.output) : x ∈ (execute_plan fs p).output := by
  induction p generalizing fs with
  | nil => exact h
  | cons i rest ih =>
      exact ih (execute_item fs i) (execute_item_output_mono fs i x h)

theorem dest_mem_after_execute (p : List PlanItem) (fs : FileSystem)
    (i : PlanItem) (hi : i ∈ p) (hsrc : source_found fs i.clip_id = true) :
    dest_path i ∈ (execute_plan fs p).output := by
  induction p generalizing fs with
  | nil => simp at hi
  | cons j rest ih =>
      rcases List.mem_cons.mp hi with hij | hirest
      · subst hij
        refine execute_plan_output_mono rest (execute_item fs i) _ ?_
        unfold execute_item
        rw [hsrc]
        simp only [if_pos]
        exact mem_createFile_self _ _
      · refine ih (execute_item fs j) hirest ?_
        rw [source_found_of_processing_eq (execute_item fs j) fs i.clip_id
              (execute_item_processing fs j)]
        exact hsrc

theorem execute_item_noop (fs : FileSystem) (i : PlanItem)
    (h : source_found fs i.clip_id = true → dest_path i ∈ fs.output) :
    execute_item fs i = fs := by
  unfold execute_item
  split
  · next hsrc =>
      have hd := h hsrc
      unfold createFile
      rw [if_pos hd]
  · rfl

theorem execute_plan_noop (p : List PlanItem) (fs : FileSystem)
    (h : ∀ i ∈ p, source_found fs i.clip_id = true → dest_path i ∈ fs.output) :
    execute_plan fs p = fs := by
  induction p with
  | nil => rfl
  | cons i rest ih =>
      have hi := execute_item_noop fs i (h i (List.mem_cons_self i rest))
      show execute_plan (execute_item fs i) rest = fs
      rw [hi]
      exact ih (fun j hj => h j (List.mem_cons_of_mem i hj))

theorem execute_plan_idem (fs : FileSystem) (p : List PlanItem) :
    execute_plan (execute_plan fs p) p = execute_plan fs p := by
  apply execute_plan_noop
  intro i hi hsrc
  refine dest_mem_after_execute p fs i hi ?_
  rw [← source_found_of_processing_eq (execute_plan fs p) fs i.clip_id
        (execute_plan_processing p fs)]
  exact hsrc

/-- A `rfl`-characterization of the decision string computed by
`decide_clip`: only `"keep"` and `"discard"` are ever produced, by the
threshold comparison on the unrounded final score. -/
theorem decide_clip_decision_eq (cfg : DeciderConfig) (cid : String)
    (metrics : Metrics) (cat? : Option String) :
    (decide_clip cfg cid metrics cat?).decision =
      if quality_score cfg metrics *
           semantic_weight_of cfg (semantic_category_of cat?) * (1 - 0) ≥
           cfg.keep_threshold then "keep" else "discard" := rfl

/-! ## Claim theorems -/

/-- C5: `update_score` stores exactly `clamp(v, 0, 1)` for the written
metric, merges with (does not replace) the unit's other metrics and the
other units' maps, the stored value lies in `[0,1]`, the in-range invariant
is preserved by every call, and hence every ledger built by a sequence of
`update_score` calls has all of its values in `[0,1]`. -/
theorem update_score_clamps_and_merges (L : Ledger) (c m : String) (v : ℚ) :
    lookupA (get_score (update_score L c m v) c) m = some (clamp01 v) ∧
    (∀ m', m' ≠ m → lookupA (get_score (update_score L c m v) c) m' =
        lookupA (get_score L c) m') ∧
    (∀ c', c' ≠ c → get_score (update_score L c m v) c' = get_score L c') ∧
    (0 ≤ clamp01 v ∧ clamp01 v ≤ 1) ∧
    (ValuesIn01 L → ValuesIn01 (update_score L c m v)) ∧
    (∀ us, ValuesIn01 (apply_updates [] us)) := by
  refine ⟨?_, ?_, ?_, clamp01_mem_Icc v, valuesIn01_update L c m v,
    fun us => valuesIn01_apply_updates [] us valuesIn01_nil⟩
  · show lookupA ((lookupA (insertA L c
        (insertA ((lookupA L c).getD []) m (clamp01 v))) c).getD []) m = _
    rw [lookupA_insertA_self, Option.getD_some, lookupA_insertA_self]
  · intro m' hm'
    show lookupA ((lookupA (insertA L c
        (insertA ((lookupA L c).getD []) m (clamp01 v))) c).getD []) m' = _
    rw [lookupA_insertA_self, Option.getD_some,
        lookupA_insertA_ne _ _ _ _ hm']
    rfl
  · intro c' hc'
    show (lookupA (insertA L c
        (insertA ((lookupA L c).getD []) m (clamp01 v))) c').getD [] = _
    rw [lookupA_insertA_ne _ _ _ _ hc']
    rfl

/-- C5 witness: the theorem instantiated at a ledger holding one in-range
value, writing the out-of-range value 1.5 to a second metric. -/
theorem update_score_clamps_and_merges_witness :
    lookupA (get_score (update_score [("a.mp4", [("motion_score", 1/2)])]
        "a.mp4" "face_score" (3/2)) "a.mp4") "face_score" =
      some (clamp01 (3/2)) ∧
    lookupA (get_score (update_score [("a.mp4", [("motion_score", 1/2)])]
        "a.mp4" "face_score" (3/2)) "a.mp4") "motion_score" =
      lookupA (get_score [("a.mp4", [("motion_score", 1/2)])] "a.mp4")
        "motion_score" ∧
    (0 ≤ clamp01 (3/2) ∧ clamp01 (3/2) ≤ 1) ∧
    ValuesIn01 (update_score [("a.mp4", [("motion_score", 1/2)])]
        "a.mp4" "face_score" (3/2)) := by
  obtain ⟨h1, h2, _, h4, h5, _⟩ :=
    update_score_clamps_and_merges [("a.mp4", [("motion_score", 1/2)])]
      "a.mp4" "face_score" (3/2)
  refine ⟨h1, h2 "motion_score" (by decide), h4, h5 ?_⟩
  intro p hp q hq
  simp only [List.mem_singleton] at hp
  subst hp
  simp only [List.mem_singleton] at hq
  subst hq
  exact ⟨by norm_num, by norm_num⟩

/-- C6: a unit whose metric map is empty gets `final_score = 0` and the
decision `"discard"` under the default policy, whatever its semantic tag
(missing metrics read as 0.0 and are never an error: `decide_clip` is total).
-/
theorem no_metrics_zero_and_discard (cid : String) (cat? : Option String) :
    (decide_clip defaultDeciderConfig cid [] cat?).final_score = 0 ∧
    (decide_clip defaultDeciderConfig cid [] cat?).decision = "discard" := by
  have hq : quality_score defaultDeciderConfig [] = 0 := by
    simp [quality_score, lookupA, defaultDeciderConfig]
  constructor
  · show round3 (quality_score defaultDeciderConfig [] *
      semantic_weight_of defaultDeciderConfig (semantic_category_of cat?) *
      (1 - 0)) = 0
    rw [hq]
    norm_num [round3]
  · rw [decide_clip_decision_eq, hq]
    norm_num [defaultDeciderConfig]

/-- C8: looking up a unit id that is not tracked never errors:
`is_step_done` is `false` for every step, `get_chunk_status` is the empty
record, and `get_score` is the empty mapping.  (All three functions are
total in the embedding; the Python originals likewise return defaults
rather than raising.) -/
theorem untracked_lookups_return_empty (st : PipelineState) (L : Ledger)
    (c s : String) (h1 : lookupA st.chunks c = none)
    (h2 : lookupA L c = none) :
    is_step_done st c s = false ∧ get_chunk_status st c = none ∧
    get_score L c = [] := by
  refine ⟨?_, h1, ?_⟩
  · unfold is_step_done
    rw [h1]
  · unfold get_score
    rw [h2]
    rfl

/-- C8 witness: a store tracking `"a.mp4"` only, queried for the untracked
`"b.mp4"`. -/
theorem untracked_lookups_return_empty_witness :
    is_step_done ⟨[("a.mp4", pendingChunk)]⟩ "b.mp4" "🏃 Motion Scoring" =
      false ∧
    get_chunk_status ⟨[("a.mp4", pendingChunk)]⟩ "b.mp4" = none ∧
    get_score [("a.mp4", [("motion_score", 1/2)])] "b.mp4" = [] :=
  untracked_lookups_return_empty ⟨[("a.mp4", pendingChunk)]⟩
    [("a.mp4", [("motion_score", 1/2)])] "b.mp4" "🏃 Motion Scoring"
    (by decide) (by decide)

/-- C9: for an unchanged decision list, `plan_actions` followed by
`execute_plan` run twice yields exactly the filesystem of running the pair
once (the plan is a deterministic function of the decisions, an existing
destination is overwritten rather than duplicated); the processing tree is
untouched (copy, never move) and no previously existing output file is lost.
-/
theorem plan_execute_twice_eq_once (fs : FileSystem) (policy : ActionPolicy)
    (root : String) (ds : List Decision) :
    execute_plan (execute_plan fs (plan_actions policy root ds))
        (plan_actions policy root ds) =
      execute_plan fs (plan_actions policy root ds) ∧
    (execute_plan fs (plan_actions policy root ds)).processing =
      fs.processing ∧
    fs.output ⊆ (execute_plan fs (plan_actions policy root ds)).output :=
  ⟨execute_plan_idem fs _, execute_plan_processing _ fs,
    fun _ hx => execute_plan_output_mono _ fs _ hx⟩

/-- C10: `update_chunk_status` and `mark_step_done` on an untracked unit id
return the state unchanged (nothing is saved), and neither operation ever
changes the set of tracked unit ids. -/
theorem untracked_mutations_are_noops (st : PipelineState)
    (c status2 s : String) (step message : Option String)
    (h : lookupA st.chunks c = none) :
    update_chunk_status st c status2 step message = st ∧
    mark_step_done st c s = st ∧
    (∀ c' status' step' message',
        keysA (update_chunk_status st c' status' step' message').chunks =
          keysA st.chunks) ∧
    (∀ c' s', keysA (mark_step_done st c' s').chunks = keysA st.chunks) := by
  refine ⟨?_, ?_, ?_, ?_⟩
  · unfold update_chunk_status
    rw [h]
  · unfold mark_step_done
    rw [h]
  · intro c' status' step' message'
    unfold update_chunk_status
    cases hc : lookupA st.chunks c' with
    | none => rfl
    | some cst =>
        exact keysA_insertA_of_mem st.chunks c' _ (by rw [hc]; simp)
  · intro c' s'
    unfold mark_step_done
    cases hc : lookupA st.chunks c' with
    | none => rfl
    | some cst =>
        exact keysA_insertA_of_mem st.chunks c' _ (by rw [hc]; simp)

/-- C10 witness: mutating the untracked `"b.mp4"` in a store tracking only
`"a.mp4"` changes nothing, and mutating the tracked `"a.mp4"` keeps the key
set. -/
theorem untracked_mutations_are_noops_witness :
    update_chunk_status ⟨[("a.mp4", pendingChunk)]⟩ "b.mp4" "PROCESSING"
        none none = ⟨[("a.mp4", pendingChunk)]⟩ ∧
    mark_step_done ⟨[("a.mp4", pendingChunk)]⟩ "b.mp4" "🏃 Motion Scoring" =
      ⟨[("a.mp4", pendingChunk)]⟩ ∧
    keysA (update_chunk_status ⟨[("a.mp4", pendingChunk)]⟩ "a.mp4"
        "PROCESSING" none none).chunks = keysA
        (⟨[("a.mp4", pendingChunk)]⟩ : PipelineState).chunks ∧
    keysA (mark_step_done ⟨[("a.mp4", pendingChunk)]⟩ "a.mp4"
        "🏃 Motion Scoring").chunks = keysA
        (⟨[("a.mp4", pendingChunk)]⟩ : PipelineState).chunks := by
  obtain ⟨h1, h2, h3, h4⟩ :=
    untracked_mutations_are_noops ⟨[("a.mp4", pendingChunk)]⟩ "b.mp4"
      "PROCESSING" "🏃 Motion Scoring" none none (by decide)
  exact ⟨h1, h2, h3 "a.mp4" "PROCESSING" none none, h4 "a.mp4" "🏃 Motion Scoring"⟩


/-- The scenario policy of the spec's decision test case, resolved the way
`decide_clips` resolves it: `keep_threshold` 0.5, weights
`{face: 0.4, motion: 0.3, speech: 0.3}`, no `semantic_policy` section (so
the semantic weight table is `{}` and `default_weight` is 0.5). -/
def scenarioPolicy : DeciderConfig :=
  { keep_threshold := 0.5, wface := 0.4, wmotion := 0.3, wspeech := 0.3,
    semantic_weights := [], semantic_default := 0.5 }

/-- The scenario unit scores `{face: 1.0, motion: 0.0, speech: 1.0}` under
the metric keys the decider reads. -/
def scenarioMetrics : Metrics :=
  [("face_score", 1), ("motion_score", 0), ("vad_score", 1)]

theorem scenario_quality :
    quality_score scenarioPolicy scenarioMetrics = 0.7 := by
  simp [quality_score, scenarioPolicy, scenarioMetrics, lookupA]
  norm_num

theorem scenario_semantic_weight :
    semantic_weight_of scenarioPolicy "unknown" = 0.5 := by
  simp [semantic_weight_of, scenarioPolicy, lookupA]

/-- `round(q, 3)` of a value that is an exact multiple of 1/1000. -/
theorem round3_of_int (q : ℚ) (n : ℤ) (h : q * 1000 = (n : ℚ)) :
    round3 q = (n : ℚ) / 1000 := by
  unfold round3
  rw [h]
  simp

theorem scenario_final_score :
    (decide_clip scenarioPolicy "clip_0001.mp4"
      scenarioMetrics none).final_score = 0.35 := by
  show round3 (quality_score scenarioPolicy scenarioMetrics *
    semantic_weight_of scenarioPolicy (semantic_category_of none) *
    (1 - 0)) = 0.35
  have hcat : semantic_category_of none = "unknown" := rfl
  rw [hcat, round3_of_int _ 350
    (by rw [scenario_quality, scenario_semantic_weight]; norm_num)]
  norm_num

theorem scenario_decision :
    (decide_clip scenarioPolicy "clip_0001.mp4"
      scenarioMetrics none).decision = "discard" := by
  rw [decide_clip_decision_eq, if_neg]
  have hcat : semantic_category_of none = "unknown" := rfl
  rw [hcat, scenario_quality, scenario_semantic_weight]
  norm_num [scenarioPolicy]

/-- C1 counterexample: on the spec's scenario, a unit with no semantic label
does NOT get a neutral semantic weight of 1.0.  `decide_clips` maps a
missing label to the category `"unknown"` and looks that up in the semantic
weight table with fallback `default_weight` (0.5), so `quality = 0.7` but
`finalScore = 0.35` and the decision is `"discard"` — not `finalScore = 0.7`
and `keep` as claimed. -/
theorem missing_label_not_neutral_counterexample :
    quality_score scenarioPolicy scenarioMetrics = 0.7 ∧
    (decide_clip scenarioPolicy "clip_0001.mp4" scenarioMetrics
        none).semantic_weight = 0.5 ∧
    (decide_clip scenarioPolicy "clip_0001.mp4" scenarioMetrics
        none).semantic_weight ≠ 1 ∧
    (decide_clip scenarioPolicy "clip_0001.mp4" scenarioMetrics
        none).final_score = 0.35 ∧
    (decide_clip scenarioPolicy "clip_0001.mp4" scenarioMetrics
        none).decision = "discard" := by
  refine ⟨scenario_quality, ?_, ?_, scenario_final_score, scenario_decision⟩
  · show semantic_weight_of scenarioPolicy (semantic_category_of none) = 0.5
    exact scenario_semantic_weight
  · show semantic_weight_of scenarioPolicy (semantic_category_of none) ≠ 1
    rw [show semantic_category_of none = "unknown" from rfl,
        scenario_semantic_weight]
    norm_num

/-- C1 amended: a unit whose scores are in the ledger but that has no
semantic label is treated exactly as if its category were the explicit
string `"unknown"`: its semantic weight is
`semanticWeights.get("unknown", semanticDefaultWeight)` — the configured
default (0.5 when unconfigured), not a neutral 1.0 — so the scenario policy
`{weights: {face: 0.4, motion: 0.3, speech: 0.3}, keepThreshold: 0.5}` with
scores `{face: 1.0, motion: 0.0, speech: 1.0}` yields `quality = 0.7`,
`finalScore = 0.35`, and `decision = discard`. -/
theorem missing_label_uses_unknown_default (cfg : DeciderConfig)
    (cid : String) (metrics : Metrics)
    (h : lookupA cfg.semantic_weights "unknown" = none) :
    decide_clip cfg cid metrics none =
      decide_clip cfg cid metrics (some "unknown") ∧
    (decide_clip cfg cid metrics none).semantic_weight =
      cfg.semantic_default ∧
    quality_score scenarioPolicy scenarioMetrics = 0.7 ∧
    (decide_clip scenarioPolicy "clip_0001.mp4" scenarioMetrics
        none).final_score = 0.35 ∧
    (decide_clip scenarioPolicy "clip_0001.mp4" scenarioMetrics
        none).decision = "discard" := by
  refine ⟨rfl, ?_, scenario_quality, scenario_final_score, scenario_decision⟩
  show semantic_weight_of cfg (semantic_category_of none) =
    cfg.semantic_default
  unfold semantic_weight_of semantic_category_of
  rw [Option.getD_none, h, Option.getD_none]

/-- C1 amended witness: the theorem at the scenario policy, whose semantic
weight table is empty (so `"unknown"` is not listed). -/
theorem missing_label_uses_unknown_default_witness :
    decide_clip scenarioPolicy "clip_0001.mp4" scenarioMetrics none =
      decide_clip scenarioPolicy "clip_0001.mp4" scenarioMetrics
        (some "unknown") ∧
    (decide_clip scenarioPolicy "clip_0001.mp4" scenarioMetrics
        none).semantic_weight = scenarioPolicy.semantic_default ∧
    quality_score scenarioPolicy scenarioMetrics = 0.7 ∧
    (decide_clip scenarioPolicy "clip_0001.mp4" scenarioMetrics
        none).final_score = 0.35 ∧
    (decide_clip scenarioPolicy "clip_0001.mp4" scenarioMetrics
        none).decision = "discard" :=
  missing_label_uses_unknown_default scenarioPolicy "clip_0001.mp4"
    scenarioMetrics rfl

/-- The planner's `action_policy` defaults: `confident_keep` 0.75,
`borderline` 0.6. -/
def defaultActionPolicy : ActionPolicy :=
  { confident_keep := 0.75, borderline := 0.6 }

/-- A decider configuration whose semantic weight table drives a unit's
final score into the planner's default borderline band `[0.6, 0.65)`. -/
def bandPolicy : DeciderConfig :=
  { defaultDeciderConfig with semantic_weights := [("promo", 0.6)] }

/-- All-ones unit scores, giving `quality = 1.0` under the default weights. -/
def bandMetrics : Metrics :=
  [("face_score", 1), ("motion_score", 1), ("vad_score", 1)]

theorem band_quality : quality_score bandPolicy bandMetrics = 1 := by
  simp [quality_score, bandPolicy, defaultDeciderConfig, bandMetrics, lookupA]
  norm_num

theorem band_semantic_weight : semantic_weight_of bandPolicy "promo" = 0.6 := by
  simp [semantic_weight_of, bandPolicy, defaultDeciderConfig, lookupA]

theorem band_final_score : (decide_clip bandPolicy "clip_0002.mp4" bandMetrics
    (some "promo")).final_score = 0.6 := by
  show round3 (quality_score bandPolicy bandMetrics *
    semantic_weight_of bandPolicy (semantic_category_of (some "promo")) *
    (1 - 0)) = 0.6
  rw [show semantic_category_of (some "promo") = "promo" from rfl,
      round3_of_int _ 600 (by rw [band_quality, band_semantic_weight]; norm_num)]
  norm_num

theorem band_decision : (decide_clip bandPolicy "clip_0002.mp4" bandMetrics
    (some "promo")).decision = "discard" := by
  rw [decide_clip_decision_eq, if_neg]
  rw [show semantic_category_of (some "promo") = "promo" from rfl,
      band_quality, band_semantic_weight]
  norm_num [bandPolicy, defaultDeciderConfig]

/-- Routing of a `"quarantine"`-labelled decision through `plan_action`:
quarantine folder, `" (Borderline)"` reason suffix. -/
theorem plan_quarantine_routing (root : String) (d : Decision)
    (hq : d.decision = "quarantine") :
    (plan_action root d).action = "quarantine" ∧
    (plan_action root d).destination = joinPath root "quarantine" ∧
    (plan_action root d).reason =
      reason_of d.top_factors ++ " (Borderline)" := by
  unfold plan_action
  rw [hq, show lowerStr "quarantine" = "quarantine" from by decide]
  simp

/-- Routing of a `"discard"`-labelled decision through `plan_action`. -/
theorem plan_discard_routing (root : String) (d : Decision)
    (hd : d.decision = "discard") :
    (plan_action root d).action = "discard" ∧
    (plan_action root d).destination = joinPath root "discarded" := by
  unfold plan_action
  rw [hd, show lowerStr "discard" = "discard" from by decide]
  simp

/-- C2 counterexample: a unit whose final score (0.6) lies exactly in the
configured band below `keepThreshold` (`borderline = 0.6 ≤ 0.6 < 0.65 =
keepThreshold`) is decided `"discard"`, not `"quarantine"`, and is planned
into the discarded folder: the decision surface the code produces is
two-way.  (`decide_clips` compares against `keep_threshold` only, and the
planner's `borderline` config value is read but never used.) -/
theorem borderline_band_not_quarantined_counterexample :
    defaultActionPolicy.borderline ≤
      (decide_clip bandPolicy "clip_0002.mp4" bandMetrics
        (some "promo")).final_score ∧
    (decide_clip bandPolicy "clip_0002.mp4" bandMetrics
        (some "promo")).final_score < bandPolicy.keep_threshold ∧
    (decide_clip bandPolicy "clip_0002.mp4" bandMetrics
        (some "promo")).decision = "discard" ∧
    (plan_action "output_clips/default_user"
        (decide_clip bandPolicy "clip_0002.mp4" bandMetrics
          (some "promo"))).action = "discard" ∧
    (plan_action "output_clips/default_user"
        (decide_clip bandPolicy "clip_0002.mp4" bandMetrics
          (some "promo"))).destination =
      "output_clips/default_user/discarded" := by
  obtain ⟨ha, hdst⟩ := plan_discard_routing "output_clips/default_user"
    (decide_clip bandPolicy "clip_0002.mp4" bandMetrics (some "promo"))
    band_decision
  refine ⟨?_, ?_, band_decision, ha, hdst⟩
  · rw [band_final_score]
    norm_num [defaultActionPolicy]
  · rw [band_final_score]
    norm_num [bandPolicy, defaultDeciderConfig]

/-- C2 amended: the decision the decider produces is two-way — `"keep"` iff
`finalScore ≥ keepThreshold`, else `"discard"`; the borderline band exists
only in unused configuration (`plan_actions` is independent of its
`ActionPolicy` argument).  The planner does route any decision labelled
`"quarantine"` to the dedicated quarantine folder with the `" (Borderline)"`
suffix on the reason, but the decider never emits that label. -/
theorem decision_two_way_planner_routes_by_label (cfg : DeciderConfig)
    (cid : String) (metrics : Metrics) (cat? : Option String)
    (p1 p2 : ActionPolicy) (root : String) (ds : List Decision)
    (d : Decision) (hq : d.decision = "quarantine") :
    ((decide_clip cfg cid metrics cat?).decision = "keep" ∨
      (decide_clip cfg cid metrics cat?).decision = "discard") ∧
    plan_actions p1 root ds = plan_actions p2 root ds ∧
    (plan_action root d).action = "quarantine" ∧
    (plan_action root d).destination = joinPath root "quarantine" ∧
    (plan_action root d).reason =
      reason_of d.top_factors ++ " (Borderline)" := by
  obtain ⟨hq1, hq2, hq3⟩ := plan_quarantine_routing root d hq
  refine ⟨?_, rfl, hq1, hq2, hq3⟩
  rw [decide_clip_decision_eq]
  split
  · exact Or.inl rfl
  · exact Or.inr rfl

/-- A decision record carrying the `"quarantine"` label (never produced by
`decide_clips`; used to exercise the planner's quarantine branch). -/
def quarantineSample : Decision :=
  { clip_id := "clip_0003.mp4", final_score := 0.6, decision := "quarantine",
    confidence := 0.6, top_factors := ["Motion"],
    semantic_category := "unknown", semantic_weight := 0.5 }

/-- C2 amended witness: instantiated at the band scenario and a concrete
quarantine-labelled record. -/
theorem decision_two_way_planner_routes_by_label_witness :
    ((decide_clip bandPolicy "clip_0002.mp4" bandMetrics
        (some "promo")).decision = "keep" ∨
      (decide_clip bandPolicy "clip_0002.mp4" bandMetrics
        (some "promo")).decision = "discard") ∧
    plan_actions defaultActionPolicy "output_clips/default_user"
        [quarantineSample] =
      plan_actions { confident_keep := 0, borderline := 0 }
        "output_clips/default_user" [quarantineSample] ∧
    (plan_action "output_clips/default_user" quarantineSample).action =
      "quarantine" ∧
    (plan_action "output_clips/default_user" quarantineSample).destination =
      joinPath "output_clips/default_user" "quarantine" ∧
    (plan_action "output_clips/default_user" quarantineSample).reason =
      reason_of quarantineSample.top_factors ++ " (Borderline)" :=
  decision_two_way_planner_routes_by_label bandPolicy "clip_0002.mp4"
    bandMetrics (some "promo") defaultActionPolicy
    { confident_keep := 0, borderline := 0 } "output_clips/default_user"
    [quarantineSample] quarantineSample rfl

/-- A state tracking one chunk that has completed every declared stage
except the last one (`"🎞️  Final Merge"`). -/
def preFinalState : PipelineState :=
  ⟨[("chunk_000.mp4",
     { pendingChunk with completed_steps := STEPS.dropLast })]⟩

/-- C3 counterexample: marking the declared pipeline's last stage done adds
it to `completed_steps` but leaves the unit's status `"PENDING"` —
`mark_step_done` never sets `status = COMPLETED`. -/
theorem last_stage_done_not_completed_counterexample :
    STEPS.getLast? = some "🎞️  Final Merge" ∧
    get_chunk_status (mark_step_done preFinalState "chunk_000.mp4"
        "🎞️  Final Merge") "chunk_000.mp4" =
      some { pendingChunk with completed_steps := STEPS } ∧
    ((get_chunk_status (mark_step_done preFinalState "chunk_000.mp4"
        "🎞️  Final Merge") "chunk_000.mp4").getD pendingChunk).status ≠
      "COMPLETED" := by
  decide

/-- C3 amended: for a tracked unit, `markStageDone(unitID, stage)` adds
`stage` to the unit's `completed_stages` (idempotently) and changes no other
field — in particular it never sets the status to COMPLETED, not even for
the last stage of the declared pipeline. -/
theorem mark_step_done_adds_stage_changes_nothing_else (st : PipelineState)
    (c s : String) (cst : ChunkState) (h : get_chunk_status st c = some cst) :
    get_chunk_status (mark_step_done st c s) c =
      some { cst with completed_steps :=
               if s ∈ cst.completed_steps then cst.completed_steps
               else cst.completed_steps ++ [s] } ∧
    is_step_done (mark_step_done st c s) c s = true ∧
    ((get_chunk_status (mark_step_done st c s) c).getD pendingChunk).status =
      cst.status := by
  unfold get_chunk_status at h
  have hmark : mark_step_done st c s =
      ⟨insertA st.chunks c
        { cst with completed_steps :=
            if s ∈ cst.completed_steps then cst.completed_steps
            else cst.completed_steps ++ [s] }⟩ := by
    unfold mark_step_done
    rw [h]
  have hlook : get_chunk_status (mark_step_done st c s) c =
      some { cst with completed_steps :=
               if s ∈ cst.completed_steps then cst.completed_steps
               else cst.completed_steps ++ [s] } := by
    unfold get_chunk_status
    rw [hmark]
    exact lookupA_insertA_self _ _ _
  refine ⟨hlook, ?_, by rw [hlook, Option.getD_some]⟩
  unfold is_step_done
  unfold get_chunk_status at hlook
  rw [hlook]
  simp only [Bool.or_eq_true, decide_eq_true_eq]
  right
  split
  · next hin => exact hin
  · exact List.mem_append.mpr (Or.inr (List.mem_singleton.mpr rfl))

/-- C3 amended witness: marking a stage on a freshly tracked chunk. -/
theorem mark_step_done_adds_stage_changes_nothing_else_witness :
    get_chunk_status (mark_step_done ⟨[("a.mp4", pendingChunk)]⟩ "a.mp4"
        "🏃 Motion Scoring") "a.mp4" =
      some { pendingChunk with completed_steps :=
               if "🏃 Motion Scoring" ∈ pendingChunk.completed_steps then
                 pendingChunk.completed_steps
               else pendingChunk.completed_steps ++ ["🏃 Motion Scoring"] } ∧
    is_step_done (mark_step_done ⟨[("a.mp4", pendingChunk)]⟩ "a.mp4"
        "🏃 Motion Scoring") "a.mp4" "🏃 Motion Scoring" = true ∧
    ((get_chunk_status (mark_step_done ⟨[("a.mp4", pendingChunk)]⟩ "a.mp4"
        "🏃 Motion Scoring") "a.mp4").getD pendingChunk).status =
      pendingChunk.status :=
  mark_step_done_adds_stage_changes_nothing_else ⟨[("a.mp4", pendingChunk)]⟩
    "a.mp4" "🏃 Motion Scoring" pendingChunk rfl

/-- A state already tracking one chunk. -/
def trackedOne : PipelineState := ⟨[("a.mp4", pendingChunk)]⟩

/-- C4 counterexample: when the store already tracks `"a.mp4"`, calling
`init_state` with the unit list `["a.mp4", "b.mp4"]` returns the state
unchanged and does NOT create a PENDING entry for the new unit `"b.mp4"`:
the claimed per-unit merge does not happen. -/
theorem init_state_omits_new_units_counterexample :
    init_state trackedOne ["a.mp4", "b.mp4"] = trackedOne ∧
    get_chunk_status (init_state trackedOne ["a.mp4", "b.mp4"]) "b.mp4" =
      none := by
  decide

/-- C4 amended: `init_state` is all-or-nothing — if any unit is already
tracked it returns the state entirely unchanged (so it never wipes existing
entries, but also never adds entries for new unit ids); only when nothing is
tracked does it create a PENDING entry for every given unit id. -/
theorem init_state_all_or_nothing (st : PipelineState) (l : List String) :
    (st.chunks ≠ [] → init_state st l = st) ∧
    (st.chunks = [] → ∀ n ∈ l,
        get_chunk_status (init_state st l) n = some pendingChunk) := by
  constructor
  · intro h
    unfold init_state
    rw [if_neg h]
  · intro h n hn
    unfold get_chunk_status init_state
    rw [if_pos h]
    exact lookupA_map_const l pendingChunk n hn

/-- C4 amended witness: the no-op branch on a non-empty store and the
fresh-creation branch on an empty store. -/
theorem init_state_all_or_nothing_witness :
    init_state trackedOne ["a.mp4", "b.mp4"] = trackedOne ∧
    get_chunk_status (init_state ⟨[]⟩ ["b.mp4"]) "b.mp4" =
      some pendingChunk :=
  ⟨(init_state_all_or_nothing trackedOne ["a.mp4", "b.mp4"]).1 (by decide),
   (init_state_all_or_nothing ⟨[]⟩ ["b.mp4"]).2 rfl "b.mp4" (by decide)⟩

/-- C7 counterexample: in a state tracking no units at all, every tracked
unit vacuously has every stage done, yet `run_step` does not skip — the
global-resume check requires a non-empty chunk map (`if active_chunks:`)
and otherwise launches the stage's worker. -/
theorem empty_state_stage_not_skipped_counterexample :
    (⟨[]⟩ : PipelineState).chunks.all
        (fun p => is_step_done ⟨[]⟩ p.1 "🏃 Motion Scoring") = true ∧
    run_step ⟨[]⟩ "🏃 Motion Scoring" = StepOutcome.launched := by
  decide

/-- C7 amended: when at least one unit is tracked and every tracked unit has
the stage done (status COMPLETED or the stage in `completed_steps`),
`run_step` returns success without launching the stage's worker process. -/
theorem run_step_skips_when_tracked_all_done (st : PipelineState)
    (name : String) (hne : st.chunks ≠ [])
    (hall : ∀ p ∈ st.chunks, is_step_done st p.1 name = true) :
    run_step st name = StepOutcome.skipped := by
  unfold run_step
  rw [if_pos]
  exact ⟨hne, List.all_eq_true.mpr hall⟩

/-- A state whose single tracked chunk is COMPLETED. -/
def completedOne : PipelineState :=
  ⟨[("a.mp4", { pendingChunk with status := "COMPLETED" })]⟩

/-- C7 amended witness: one tracked, COMPLETED chunk lets every stage skip. -/
theorem run_step_skips_when_tracked_all_done_witness :
    run_step completedOne "🏃 Motion Scoring" = StepOutcome.skipped :=
  run_step_skips_when_tracked_all_done completedOne "🏃 Motion Scoring"
    (by decide) (by decide)
